import Mathlib

/-
Verification of the SunoLabs bot (src/index.js together with the earlier
variant kept in src/unnamed/part_002) against its natural-language
specification.

The JavaScript source is shallowly embedded: numbers are modelled as exact
rationals (JS floating point arithmetic is treated as exact arithmetic on
the literal decimal constants of the source), whole-token amounts as
naturals, JS null/undefined as Option, and JS falsiness of strings and
numbers is modelled explicitly where the source relies on it.  External
services (token purchase, on-chain transfer, wall clock) enter as an
explicit environment record, and outbound value transfers are recorded as
an effect list so that side-effect claims can be stated.
-/

namespace SunoLabs

/-! ## Tier configuration — src/index.js lines 80 to 132 -/

/-- A reward tier record: bounds of the paid-amount bracket, the retention
fraction kept by the payer, the prize multiplier, and display metadata. -/
structure Tier where
  tmin : ℚ
  tmax : ℚ
  retention : ℚ
  multiplier : ℚ
  name : String
  badge : String
deriving DecidableEq, Repr

/-- TIERS.BASIC from src/index.js: min 0.01, max 0.049, retention 0.50, multiplier 1.0. -/
def TIERS_BASIC : Tier :=
  { tmin := 1/100, tmax := 49/1000, retention := 50/100, multiplier := 1, name := "Basic", badge := "B" }

/-- TIERS.MID: min 0.05, max 0.099, retention 0.55, multiplier 1.05. -/
def TIERS_MID : Tier :=
  { tmin := 5/100, tmax := 99/1000, retention := 55/100, multiplier := 105/100, name := "Mid Tier", badge := "M" }

/-- TIERS.HIGH: min 0.10, max 0.499, retention 0.60, multiplier 1.10. -/
def TIERS_HIGH : Tier :=
  { tmin := 10/100, tmax := 499/1000, retention := 60/100, multiplier := 110/100, name := "High Tier", badge := "H" }

/-- TIERS.WHALE: min 0.50, max 999, retention 0.65, multiplier 1.15. -/
def TIERS_WHALE : Tier :=
  { tmin := 50/100, tmax := 999, retention := 65/100, multiplier := 115/100, name := "Whale", badge := "W" }

/-- getTier from src/index.js lines 115 to 120: threshold dispatch on the paid amount. -/
def getTier (amount : ℚ) : Tier :=
  if TIERS_WHALE.tmin ≤ amount then TIERS_WHALE
  else if TIERS_HIGH.tmin ≤ amount then TIERS_HIGH
  else if TIERS_MID.tmin ≤ amount then TIERS_MID
  else TIERS_BASIC

/-- getWhaleRetention from src/index.js lines 122 to 126: linear interpolation of the
retention between 0.65 at 0.50 SOL and 0.75 at 5.00 SOL. -/
def getWhaleRetention (amount : ℚ) : ℚ :=
  if amount < 50/100 then 65/100
  else if 5 ≤ amount then 75/100
  else 65/100 + ((amount - 50/100) / (450/100)) * (10/100)

/-- getWhaleMultiplier from src/index.js lines 128 to 132: linear interpolation of the
multiplier between 1.15 at 0.50 SOL and 1.50 at 5.00 SOL. -/
def getWhaleMultiplier (amount : ℚ) : ℚ :=
  if amount < 50/100 then 115/100
  else if 5 ≤ amount then 150/100
  else 115/100 + ((amount - 50/100) / (450/100)) * (35/100)

/-- The retention fraction used by the confirm-payment handler
(src/index.js lines 608 to 615): the tier retention, overridden by the whale
interpolation when the tier object is TIERS.WHALE. -/
def retentionOf (amount : ℚ) : ℚ :=
  if getTier amount = TIERS_WHALE then getWhaleRetention amount else (getTier amount).retention

/-- The prize multiplier used by the confirm-payment handler
(src/index.js lines 608 to 615). -/
def multiplierOf (amount : ℚ) : ℚ :=
  if getTier amount = TIERS_WHALE then getWhaleMultiplier amount else (getTier amount).multiplier

/-! ## Ledger data model — the global mutable state of src/index.js lines 69 to 77 -/

/-- The userData record built by the confirm-payment handler (src/index.js lines
696 to 707).  The source stores retention as a formatted percent string; the raw
fraction is kept here instead, which carries the same information. -/
structure UserData where
  userId : String
  wallet : String
  amount : ℚ
  sunoReceived : ℕ
  tier : String
  tierBadge : String
  retention : ℚ
  multiplier : ℚ
  paid : Bool
  timestamp : ℚ
deriving DecidableEq, Repr

/-- A record of the pendingPayments array.  Records created by the callback
handler carry choice and paid; records created by the confirm-payment endpoint
itself leave those fields undefined, modelled as none and false (matching how
the source reads them through falsiness). -/
structure PendingPayment where
  userId : String
  choice : Option String
  reference : String
  confirmed : Bool
  paid : Bool
  track : Option String
  title : Option String
  user : Option String
  userData : Option UserData
deriving DecidableEq, Repr

/-- An element of the participants or voters arrays: the spread of a userData
record plus the registration fields added in src/index.js lines 713 to 757.
Fields absent on one kind of record (votes and voters on vote-only records,
votedFor on upload records) are modelled by their JS-undefined reading. -/
structure Participant where
  userId : String
  wallet : String
  amount : ℚ
  sunoReceived : ℕ
  tier : String
  tierBadge : String
  retention : ℚ
  multiplier : ℚ
  paid : Bool
  timestamp : ℚ
  choice : String
  user : Option String
  track : Option String
  title : Option String
  votes : ℕ
  voters : List String
  votedFor : Option String
deriving DecidableEq, Repr

/-- The process-wide mutable state of src/index.js lines 69 to 77. -/
structure BotState where
  treasurySUNO : ℕ
  transFeeCollected : ℚ
  pendingPayments : List PendingPayment
  participants : List Participant
  voters : List Participant
  phase : String
  cycleStartTime : Option ℚ
  nextPhaseTime : Option ℚ
deriving DecidableEq, Repr

/-! ## The POST /confirm-payment endpoint — src/index.js lines 543 to 784 -/

/-- The JSON body of a confirm-payment request.  amount holds the parseFloat
result, with none standing for NaN (field missing or non-numeric);
senderWalletValid records whether the PublicKey constructor accepts
senderWallet. -/
structure Request where
  userId : Option String
  reference : Option String
  amount : Option ℚ
  senderWallet : Option String
  senderWalletValid : Bool
deriving DecidableEq, Repr

/-- External world consumed by one confirm-payment run: the token amount the
market buy yields (0 when the buy throws or returns zero), whether the token
transfer to the payer succeeds, and the wall clock used for the userData
timestamp. -/
structure Env where
  purchasedSUNO : ℕ
  transferOk : Bool
  timestamp : ℚ
deriving DecidableEq, Repr

/-- Outbound value-transfer side effects issued by the handler. -/
inductive Effect where
  | feeTransfer (amount : ℚ)
  | marketBuy (solAmount : ℚ)
  | tokenTransfer (tokens : ℕ) (wallet : String)
deriving DecidableEq, Repr

/-- The HTTP response of the endpoint.  The three 400 branches of the source
return distinct error strings; they are collapsed into one constructor since
only the status code and the absence of state change matter. -/
inductive Resp where
  | badRequest
  | alreadyProcessed
  | purchaseFailed
  | transferFailed
  | success (sunoAmount : ℕ)
deriving DecidableEq, Repr

/-- True exactly on the badRequest response. -/
def Resp.is400 : Resp → Bool
  | .badRequest => true
  | _ => false

/-- JS falsiness of an optional string: undefined or the empty string. -/
def falsyStr : Option String → Bool
  | none => true
  | some s => s == ""

/-- The validation phase of the endpoint (src/index.js lines 552 to 575) as one
boolean: truthy userId, reference and senderWallet, numeric amount within
0.001 to 100, and a well-formed wallet address. -/
def validOf (req : Request) : Bool :=
  if falsyStr req.userId || falsyStr req.reference || falsyStr req.senderWallet then false
  else
    match req.amount with
    | none => false
    | some a =>
      if a < 1/1000 || 100 < a then false
      else if !req.senderWalletValid then false
      else true

/-- Mutation existing.confirmed = true (src/index.js line 594): sets confirmed
on the first record whose reference matches. -/
def markConfirmed : List PendingPayment → String → List PendingPayment
  | [], _ => []
  | p :: ps, r =>
    if p.reference == r then { p with confirmed := true } :: ps
    else p :: markConfirmed ps r

/-- Mutation payment.paid = true and payment.userData = userData
(src/index.js lines 770 to 773): applied to the first matching record. -/
def setPaidData : List PendingPayment → String → UserData → List PendingPayment
  | [], _, _ => []
  | p :: ps, r, ud =>
    if p.reference == r then { p with paid := true, userData := some ud } :: ps
    else p :: setPaidData ps r ud

/-- The JS expression payment?.choice or-else "vote" (src/index.js line 711). -/
def jsChoice : Option String → String
  | none => "vote"
  | some c => if c == "" then "vote" else c

/-- The voter record pushed in src/index.js lines 717 to 721 and 753 to 757:
the userData spread plus choice vote and a null votedFor. -/
def voterFromData (ud : UserData) : Participant :=
  { userId := ud.userId, wallet := ud.wallet, amount := ud.amount,
    sunoReceived := ud.sunoReceived, tier := ud.tier, tierBadge := ud.tierBadge,
    retention := ud.retention, multiplier := ud.multiplier, paid := ud.paid,
    timestamp := ud.timestamp, choice := "vote", user := none, track := none,
    title := none, votes := 0, voters := [], votedFor := none }

/-- The competitor record pushed in src/index.js lines 732 to 740: the userData
spread plus choice upload, the stored track metadata, zero votes and an empty
voter list. -/
def participantFromData (ud : UserData) (user track title : Option String) : Participant :=
  { userId := ud.userId, wallet := ud.wallet, amount := ud.amount,
    sunoReceived := ud.sunoReceived, tier := ud.tier, tierBadge := ud.tierBadge,
    retention := ud.retention, multiplier := ud.multiplier, paid := ud.paid,
    timestamp := ud.timestamp, choice := "upload", user := user, track := track,
    title := title, votes := 0, voters := [], votedFor := none }

/-- The body of the endpoint after validation and after the reference has been
marked confirmed (or freshly pushed as confirmed): src/index.js lines 603 to 778.
The fee send (sendSOLPayout) catches its own errors and never throws, so the
fee counter increment always runs; the market buy result and the transfer
outcome come from the environment. -/
def processPayment (userKey reference senderWallet : String) (amountNum : ℚ)
    (env : Env) (s : BotState) : BotState × Resp × List Effect :=
  let transFee := amountNum * (10/100)
  let remainingSOL := amountNum * (90/100)
  let retention := retentionOf amountNum
  let s1 := { s with transFeeCollected := s.transFeeCollected + transFee }
  let effs := [Effect.feeTransfer transFee, Effect.marketBuy remainingSOL]
  let totalSUNO := env.purchasedSUNO
  if totalSUNO = 0 then
    (s1, Resp.purchaseFailed, effs)
  else
    let userSUNO : ℕ := Nat.floor ((totalSUNO : ℚ) * retention)
    let competitionSUNO := totalSUNO - userSUNO
    let effs2 := effs ++ [Effect.tokenTransfer userSUNO senderWallet]
    if !env.transferOk then
      (s1, Resp.transferFailed, effs2)
    else
      let s2 := { s1 with treasurySUNO := s1.treasurySUNO + competitionSUNO }
      let tier := getTier amountNum
      let userData : UserData :=
        { userId := userKey, wallet := senderWallet, amount := amountNum,
          sunoReceived := userSUNO, tier := tier.name, tierBadge := tier.badge,
          retention := retention, multiplier := multiplierOf amountNum,
          paid := true, timestamp := env.timestamp }
      let payment := s2.pendingPayments.find? (fun p => p.reference == reference)
      let userChoice := jsChoice (payment.bind (fun p => p.choice))
      let s3 :=
        if userChoice == "upload" then
          if falsyStr (payment.bind (fun p => p.track)) then
            { s2 with voters := s2.voters ++ [voterFromData userData] }
          else
            { s2 with participants := s2.participants ++
                [participantFromData userData (payment.bind (fun p => p.user))
                  (payment.bind (fun p => p.track)) (payment.bind (fun p => p.title))] }
        else
          { s2 with voters := s2.voters ++ [voterFromData userData] }
      let s4 := { s3 with pendingPayments := setPaidData s3.pendingPayments reference userData }
      (s4, Resp.success userSUNO, effs2)

/-- The fresh confirmed record pushed when the reference is unknown
(src/index.js lines 596 to 600): only userId, reference and confirmed are set. -/
def newPending (userKey reference : String) : PendingPayment :=
  { userId := userKey, choice := none, reference := reference, confirmed := true,
    paid := false, track := none, title := none, user := none, userData := none }

/-- The duplicate-reference short-circuit of the endpoint (src/index.js lines
586 to 601): an already-confirmed reference returns success without touching
anything; an unconfirmed one is marked confirmed and an unknown one pushed as
confirmed, and processing proceeds. -/
def dedupStep (userKey reference senderWallet : String) (amountNum : ℚ)
    (env : Env) (s : BotState) : BotState × Resp × List Effect :=
  match s.pendingPayments.find? (fun p => p.reference == reference) with
  | some existing =>
    if existing.confirmed then
      (s, Resp.alreadyProcessed, [])
    else
      processPayment userKey reference senderWallet amountNum env
        { s with pendingPayments := markConfirmed s.pendingPayments reference }
  | none =>
    processPayment userKey reference senderWallet amountNum env
      { s with pendingPayments := s.pendingPayments ++ [newPending userKey reference] }

/-- The full POST /confirm-payment handler (src/index.js lines 543 to 784):
validation, duplicate-reference short-circuit, then first-time processing. -/
def confirmPayment (req : Request) (env : Env) (s : BotState) :
    BotState × Resp × List Effect :=
  if falsyStr req.userId || falsyStr req.reference || falsyStr req.senderWallet then
    (s, Resp.badRequest, [])
  else
    match req.amount with
    | none => (s, Resp.badRequest, [])
    | some amountNum =>
      if amountNum < 1/1000 || 100 < amountNum then (s, Resp.badRequest, [])
      else if !req.senderWalletValid then (s, Resp.badRequest, [])
      else
        dedupStep (req.userId.getD "") (req.reference.getD "") (req.senderWallet.getD "")
          amountNum env s

/-! ## Voting on tracks — src/index.js lines 1167 to 1205 -/

/-- Result of a vote callback. -/
inductive VoteAns where
  | notFound
  | alreadyVoted
  | voted
deriving DecidableEq, Repr

/-- Mutation entry.votes++ and entry.voters.push(voterId) applied to the first
participant whose userId matches (src/index.js lines 1184 to 1185). -/
def bumpVote : List Participant → String → String → List Participant
  | [], _, _ => []
  | p :: ps, targetId, voterId =>
    if p.userId == targetId then
      { p with votes := p.votes + 1, voters := p.voters ++ [voterId] } :: ps
    else p :: bumpVote ps targetId voterId

/-- Mutation voter.votedFor = targetId applied to the first voter record whose
userId matches, when one exists (src/index.js lines 1187 to 1190). -/
def setVotedFor : List Participant → String → String → List Participant
  | [], _, _ => []
  | v :: vs, voterId, targetId =>
    if v.userId == voterId then { v with votedFor := some targetId } :: vs
    else v :: setVotedFor vs voterId targetId

/-- The vote branch of the callback-query handler (src/index.js lines 1167 to
1205): find the entry, reject a voter already in its voter set, otherwise bump
the count and record votedFor on the voter record. -/
def handleVote (targetId voterId : String) (s : BotState) : BotState × VoteAns :=
  match s.participants.find? (fun p => p.userId == targetId) with
  | none => (s, VoteAns.notFound)
  | some entry =>
    if voterId ∈ entry.voters then (s, VoteAns.alreadyVoted)
    else
      ({ s with participants := bumpVote s.participants targetId voterId,
                voters := setVotedFor s.voters voterId targetId },
       VoteAns.voted)

/-! ## Phase transitions — src/index.js lines 854 to 994 -/

/-- Public channel notifications relevant to the phase-transition claims. -/
inductive ChanMsg where
  | noEntries
  | votingStartedMain
  | votingStartedSub
  | audioPost (userId : String)
deriving DecidableEq, Repr

/-- The deferred callback scheduled by a transition, together with nothing for
the fall-through case of the startup dispatch. -/
inductive Scheduled where
  | startNewCycle
  | startVoting
  | announceWinners
  | nothing
deriving DecidableEq, Repr

/-- startVoting (src/index.js lines 855 to 908): with no paid uploads the phase
jumps to cooldown, a no-entries notice is posted and a new cycle is scheduled
in 60 seconds; otherwise the phase becomes voting for 5 minutes, the two
voting-started notices are posted, every track is posted, and the winner
announcement is scheduled. -/
def startVoting (now : ℚ) (s : BotState) : BotState × List ChanMsg × Scheduled × ℚ :=
  let uploaders := s.participants.filter (fun p => p.choice == "upload" && p.paid)
  if uploaders.isEmpty then
    ({ s with phase := "cooldown" }, [ChanMsg.noEntries], Scheduled.startNewCycle, 60000)
  else
    ({ s with phase := "voting", nextPhaseTime := some (now + 300000) },
     [ChanMsg.votingStartedMain, ChanMsg.votingStartedSub] ++
       uploaders.map (fun p => ChanMsg.audioPost p.userId),
     Scheduled.announceWinners, 300000)

/-- The fixed winner weight vector of announceWinners (src/index.js line 931). -/
def weights : List ℚ := [40/100, 25/100, 20/100, 10/100, 5/100]

/-- The 80 percent at-stake prize pool of announceWinners (src/index.js line 934). -/
def prizePool (treasury : ℕ) : ℕ := Nat.floor ((treasury : ℚ) * (80/100))

/-- One base winner share: Math.floor(prizePool * weights[i]) (src/index.js line 941). -/
def baseAmt (pool : ℕ) (w : ℚ) : ℕ := Nat.floor ((pool : ℚ) * w)

/-- One final winner payout: Math.floor(baseAmt * multiplier) (src/index.js line 942). -/
def finalAmt (pool : ℕ) (w m : ℚ) : ℕ := Nat.floor ((baseAmt pool w : ℚ) * m)

/-- Descending insertion by vote count, modelling sort((a,b) => b.votes - a.votes). -/
def insertByVotes (x : Participant) : List Participant → List Participant
  | [] => [x]
  | y :: ys => if y.votes < x.votes then x :: y :: ys else y :: insertByVotes x ys

/-- Sort a participant list by descending vote count (src/index.js line 930). -/
def sortByVotes : List Participant → List Participant
  | [] => []
  | x :: xs => insertByVotes x (sortByVotes xs)

/-- The ranked paid uploaders considered by announceWinners (src/index.js lines
917 and 930). -/
def rankedUploaders (s : BotState) : List Participant :=
  sortByVotes (s.participants.filter (fun p => p.choice == "upload" && p.paid))

/-- The per-winner payout amounts of the announceWinners loop (src/index.js
lines 939 to 953): one entry per rank up to min(5, number of entries), each the
floored weighted share of the pool further multiplied by that entry multiplier.
The source issues the transfer only when the entry has a wallet and the amount
is positive, so this list bounds from above what is actually sent (and equals
it when every ranked entry has a wallet, as registration guarantees). -/
def winnerPayouts (pool : ℕ) (ranked : List Participant) : List ℕ :=
  (weights.zip ranked).map (fun we => finalAmt pool we.1 we.2.multiplier)

/-- The total amount sent to ranked winners in one round on state s. -/
def announceTotal (s : BotState) : ℕ :=
  (winnerPayouts (prizePool s.treasurySUNO) (rankedUploaders s)).sum

/-! ## State persistence — src/index.js lines 460 to 496 -/

/-- The JSON document written by saveState (src/index.js lines 460 to 478). -/
structure Snapshot where
  participants : List Participant
  voters : List Participant
  phase : String
  cycleStartTime : Option ℚ
  nextPhaseTime : Option ℚ
  treasurySUNO : ℕ
  transFeeCollected : ℚ
  pendingPayments : List PendingPayment
deriving DecidableEq, Repr

/-- saveState: the whole mutable state is serialised field by field. -/
def saveState (s : BotState) : Snapshot :=
  { participants := s.participants, voters := s.voters, phase := s.phase,
    cycleStartTime := s.cycleStartTime, nextPhaseTime := s.nextPhaseTime,
    treasurySUNO := s.treasurySUNO, transFeeCollected := s.transFeeCollected,
    pendingPayments := s.pendingPayments }

/-- The JS read d.field or-else null applied to a stored number-or-null field:
a stored 0 is falsy and collapses to null. -/
def jsOrNull (v : Option ℚ) : Option ℚ :=
  match v with
  | some x => if x = 0 then none else some x
  | none => none

/-- loadState (src/index.js lines 480 to 496).  Array fields are always truthy
in JS (even when empty) so their or-else fallbacks are the identity, as are the
or-else-zero fallbacks on the numeric balances; the phase falls back to
submission on an empty string and the two timestamps collapse a stored 0 to
null. -/
def loadState (d : Snapshot) : BotState :=
  { participants := d.participants, voters := d.voters,
    phase := if d.phase == "" then "submission" else d.phase,
    cycleStartTime := jsOrNull d.cycleStartTime,
    nextPhaseTime := jsOrNull d.nextPhaseTime,
    treasurySUNO := d.treasurySUNO, transFeeCollected := d.transFeeCollected,
    pendingPayments := d.pendingPayments }

/-- JS falsiness of a number-or-null value: null and 0 are falsy. -/
def falsyNum : Option ℚ → Bool
  | none => true
  | some x => x == 0

/-- The boot dispatch of src/index.js lines 1227 to 1248: restart a cycle when
no cycle start is recorded or the phase is cooldown, otherwise reschedule the
pending transition for the remaining duration, firing on the nominal 1 second
delay when the persisted deadline has already elapsed. -/
def startupSchedule (s : BotState) (now : ℚ) : Scheduled × ℚ :=
  if falsyNum s.cycleStartTime || s.phase == "cooldown" then
    (Scheduled.startNewCycle, 3000)
  else if s.phase == "submission" then
    let timeLeft := s.cycleStartTime.getD 0 + 300000 - now
    if timeLeft ≤ 0 then (Scheduled.startVoting, 1000)
    else (Scheduled.startVoting, timeLeft)
  else if s.phase == "voting" then
    let timeLeft := s.nextPhaseTime.getD 0 - now
    if timeLeft ≤ 0 then (Scheduled.announceWinners, 1000)
    else (Scheduled.announceWinners, timeLeft)
  else (Scheduled.nothing, 0)

end SunoLabs

namespace P2

/-! ## The earlier variant src/unnamed/part_002 -/

/-- One element of the submissions array (src/unnamed/part_002 lines 590 to
601), with the tier metadata that confirm-payment adds later held as options. -/
structure Submission where
  user : String
  userId : String
  track : String
  title : String
  votes : ℕ
  voters : List String
  paid : Bool
  wallet : Option String
  amountPaid : ℚ
  multiplier : ℚ
  badge : Option String
  tier : Option String
deriving DecidableEq, Repr

/-- One element of the pendingPayments array of part_002. -/
structure Pending where
  userId : String
  username : String
  reference : String
  confirmed : Bool
deriving DecidableEq, Repr

/-- The process-wide mutable state of src/unnamed/part_002 lines 62 to 68. -/
structure P2State where
  potSOL : ℚ
  pendingPayments : List Pending
  submissions : List Submission
  phase : String
  cycleStartTime : Option ℚ
  nextPhaseTime : Option ℚ
deriving DecidableEq, Repr

/-- Replies of the audio-message handler of part_002 lines 520 to 603. -/
inductive AudioReply where
  | phaseClosed
  | alreadyPaid
  | paymentPending
  | accepted
deriving DecidableEq, Repr

/-- The audio-message handler (src/unnamed/part_002 lines 520 to 603): outside
the submission phase nothing changes; an identity with a paid submission is
rejected; an identity with an unpaid submission only gets a fresh pending
payment reference; otherwise a fresh pending payment and a new unpaid
submission are appended. -/
def handleAudio (userId user track title reference : String) (s : P2State) :
    P2State × AudioReply :=
  if s.phase != "submission" then (s, AudioReply.phaseClosed)
  else if (s.submissions.find? (fun sub => sub.userId == userId && sub.paid)).isSome then
    (s, AudioReply.alreadyPaid)
  else if (s.submissions.find? (fun sub => sub.userId == userId && !sub.paid)).isSome then
    ({ s with pendingPayments := s.pendingPayments ++
        [{ userId := userId, username := user, reference := reference, confirmed := false }] },
     AudioReply.paymentPending)
  else
    ({ s with
        pendingPayments := s.pendingPayments ++
          [{ userId := userId, username := user, reference := reference, confirmed := false }],
        submissions := s.submissions ++
          [{ user := user, userId := userId, track := track, title := title, votes := 0,
             voters := [], paid := false, wallet := none, amountPaid := 0, multiplier := 1,
             badge := none, tier := none }] },
     AudioReply.accepted)

/-- startVoting of part_002 (lines 340 to 412): with no paid submissions only a
no-entries notice is posted and a new cycle is scheduled — the phase field is
left untouched; otherwise the phase becomes voting for 5 minutes and the
submissions are posted. -/
def startVoting (now : ℚ) (s : P2State) : P2State × List SunoLabs.ChanMsg × SunoLabs.Scheduled × ℚ :=
  let paidSubs := s.submissions.filter (fun sub => sub.paid)
  if paidSubs.isEmpty then
    (s, [SunoLabs.ChanMsg.noEntries], SunoLabs.Scheduled.startNewCycle, 60000)
  else
    ({ s with phase := "voting", nextPhaseTime := some (now + 300000) },
     [SunoLabs.ChanMsg.votingStartedMain, SunoLabs.ChanMsg.votingStartedSub] ++
       paidSubs.map (fun sub => SunoLabs.ChanMsg.audioPost sub.userId),
     SunoLabs.Scheduled.announceWinners, 300000)

end P2

namespace SunoLabs

/-! ## Tier lemmas -/

/-- The Basic tier is a different record from the Whale tier. -/
lemma basic_ne_whale : TIERS_BASIC ≠ TIERS_WHALE := by
  intro h
  have := congrArg Tier.name h
  simp [TIERS_BASIC, TIERS_WHALE] at this

/-- The Mid tier is a different record from the Whale tier. -/
lemma mid_ne_whale : TIERS_MID ≠ TIERS_WHALE := by
  intro h
  have := congrArg Tier.name h
  simp [TIERS_MID, TIERS_WHALE] at this

/-- The High tier is a different record from the Whale tier. -/
lemma high_ne_whale : TIERS_HIGH ≠ TIERS_WHALE := by
  intro h
  have := congrArg Tier.name h
  simp [TIERS_HIGH, TIERS_WHALE] at this

/-- Closed form of retentionOf as a piecewise-linear function of the amount. -/
lemma retentionOf_eq (a : ℚ) :
    retentionOf a =
      if 50/100 ≤ a then (if 5 ≤ a then 75/100 else 13/20 + (a - 1/2) * (1/45))
      else if 10/100 ≤ a then 60/100
      else if 5/100 ≤ a then 55/100
      else 50/100 := by
  unfold retentionOf getTier getWhaleRetention
  simp only [show TIERS_WHALE.tmin = 50/100 from rfl, show TIERS_HIGH.tmin = 10/100 from rfl,
    show TIERS_MID.tmin = 5/100 from rfl]
  split_ifs <;>
    first
      | rfl
      | ring1
      | linarith
      | simp_all [high_ne_whale, mid_ne_whale, basic_ne_whale]

/-- Closed form of multiplierOf as a piecewise-linear function of the amount. -/
lemma multiplierOf_eq (a : ℚ) :
    multiplierOf a =
      if 50/100 ≤ a then (if 5 ≤ a then 150/100 else 23/20 + (a - 1/2) * (7/90))
      else if 10/100 ≤ a then 110/100
      else if 5/100 ≤ a then 105/100
      else 1 := by
  unfold multiplierOf getTier getWhaleMultiplier
  simp only [show TIERS_WHALE.tmin = 50/100 from rfl, show TIERS_HIGH.tmin = 10/100 from rfl,
    show TIERS_MID.tmin = 5/100 from rfl]
  split_ifs <;>
    first
      | rfl
      | ring1
      | linarith
      | simp_all [high_ne_whale, mid_ne_whale, basic_ne_whale]

/-- The retention fraction always lies between one half and three quarters. -/
lemma retentionOf_bounds (a : ℚ) : 1/2 ≤ retentionOf a ∧ retentionOf a ≤ 3/4 := by
  rw [retentionOf_eq]
  split_ifs <;> constructor <;> linarith

/-- The multiplier never exceeds three halves. -/
lemma multiplierOf_le (a : ℚ) : multiplierOf a ≤ 3/2 := by
  rw [multiplierOf_eq]
  split_ifs <;> linarith

/-- An amount of 0.01 lands in the Basic tier. -/
lemma getTier_centi : getTier (1/100) = TIERS_BASIC := by
  unfold getTier
  norm_num [TIERS_WHALE, TIERS_HIGH, TIERS_MID]

/-- An amount of 0.60 lands in the Whale tier. -/
lemma getTier_sixty : getTier (60/100) = TIERS_WHALE := by
  unfold getTier
  norm_num [TIERS_WHALE]

end SunoLabs

/-- Claim C6: the tiering function maps a paid amount of 0.01 to the Basic tier with
retention 0.50 and multiplier 1.0, and maps 0.60 to the Whale tier with retention
strictly between 0.65 and 0.75 and multiplier strictly between 1.15 and 1.50. -/
theorem tier_scenarios :
    (SunoLabs.getTier (1/100)).name = "Basic" ∧
    SunoLabs.retentionOf (1/100) = 50/100 ∧
    SunoLabs.multiplierOf (1/100) = 1 ∧
    (SunoLabs.getTier (60/100)).name = "Whale" ∧
    65/100 < SunoLabs.retentionOf (60/100) ∧ SunoLabs.retentionOf (60/100) < 75/100 ∧
    115/100 < SunoLabs.multiplierOf (60/100) ∧ SunoLabs.multiplierOf (60/100) < 150/100 := by
  refine ⟨?_, ?_, ?_, ?_, ?_, ?_, ?_, ?_⟩
  · rw [SunoLabs.getTier_centi]; rfl
  · rw [SunoLabs.retentionOf_eq]; norm_num
  · rw [SunoLabs.multiplierOf_eq]; norm_num
  · rw [SunoLabs.getTier_sixty]; rfl
  · rw [SunoLabs.retentionOf_eq]; norm_num
  · rw [SunoLabs.retentionOf_eq]; norm_num
  · rw [SunoLabs.multiplierOf_eq]; norm_num
  · rw [SunoLabs.multiplierOf_eq]; norm_num

/-- Claim C7: over the accepted payment range, both the retention fraction and the
prize multiplier are monotonically non-decreasing in the paid amount, across every
tier boundary and through the interpolated whale region. -/
theorem retention_multiplier_mono (a b : ℚ)
    (ha : 1/1000 ≤ a) (hab : a ≤ b) (hb : b ≤ 100) :
    SunoLabs.retentionOf a ≤ SunoLabs.retentionOf b ∧
    SunoLabs.multiplierOf a ≤ SunoLabs.multiplierOf b := by
  constructor
  · rw [SunoLabs.retentionOf_eq, SunoLabs.retentionOf_eq]
    split_ifs <;> linarith
  · rw [SunoLabs.multiplierOf_eq, SunoLabs.multiplierOf_eq]
    split_ifs <;> linarith

/-- Witness for C7 at the concrete pair 0.05 and 0.60. -/
theorem retention_multiplier_mono_witness :
    SunoLabs.retentionOf (5/100) ≤ SunoLabs.retentionOf (60/100) ∧
    SunoLabs.multiplierOf (5/100) ≤ SunoLabs.multiplierOf (60/100) :=
  retention_multiplier_mono (5/100) (60/100) (by norm_num) (by norm_num) (by norm_num)

namespace SunoLabs

/-! ## Idempotence of the confirm-payment endpoint -/

/-- After markConfirmed, the first record matching the reference is confirmed. -/
lemma find_markConfirmed (r : String) (l : List PendingPayment)
    (h : (l.find? (fun p => p.reference == r)).isSome = true) :
    ∃ p, (markConfirmed l r).find? (fun p => p.reference == r) = some p ∧
      p.confirmed = true := by
  induction l with
  | nil => simp [List.find?] at h
  | cons p ps ih =>
    by_cases hp : (p.reference == r) = true
    · refine ⟨{ p with confirmed := true }, ?_, rfl⟩
      simp [markConfirmed, hp, List.find?]
    · have h2 : (ps.find? (fun q => q.reference == r)).isSome = true := by
        simpa [List.find?, hp] using h
      obtain ⟨q, hq, hqc⟩ := ih h2
      refine ⟨q, ?_, hqc⟩
      simp [markConfirmed, hp, List.find?, hq]

end SunoLabs

namespace SunoLabs

/-- setPaidData does not unset the confirmed flag of the first matching record. -/
lemma find_setPaidData (r : String) (ud : UserData) (l : List PendingPayment)
    (h : ∃ p, l.find? (fun q => q.reference == r) = some p ∧ p.confirmed = true) :
    ∃ p, (setPaidData l r ud).find? (fun q => q.reference == r) = some p ∧
      p.confirmed = true := by
  induction l with
  | nil =>
    obtain ⟨p, hp, _⟩ := h
    simp [List.find?] at hp
  | cons p ps ih =>
    obtain ⟨q, hq, hqc⟩ := h
    by_cases hp : (p.reference == r) = true
    · have hqp : q = p := by
        rw [List.find?] at hq
        simp [hp] at hq
        exact hq.symm
      refine ⟨({ p with paid := true, userData := some ud } : PendingPayment), ?_, ?_⟩
      · simp [setPaidData, hp, List.find?]
      · exact hqp ▸ hqc
    · have h2 : ps.find? (fun q => q.reference == r) = some q := by
        rw [List.find?] at hq
        simpa [hp] using hq
      obtain ⟨q2, hq2, hq2c⟩ := ih ⟨q, h2, hqc⟩
      refine ⟨q2, ?_, hq2c⟩
      simp [setPaidData, hp, List.find?, hq2]

/-- Appending the fresh confirmed record to a list with no matching reference
makes it the first match. -/
lemma find_push (uk r : String) (l : List PendingPayment)
    (hn : l.find? (fun p => p.reference == r) = none) :
    (l ++ [newPending uk r]).find? (fun p => p.reference == r) =
      some (newPending uk r) := by
  induction l with
  | nil => simp [List.find?, newPending]
  | cons p ps ih =>
    rw [List.find?] at hn
    by_cases hp : (p.reference == r) = true
    · simp [hp] at hn
    · simp only [hp] at hn
      rw [List.cons_append, List.find?]
      simp only [hp]
      exact ih hn

/-- processPayment never unsets the confirmed flag of the first record matching
the reference: the pending list is either untouched or passed through
setPaidData. -/
lemma processPayment_confirmed (uk rf sw : String) (a : ℚ) (env : Env) (s : BotState)
    (h : ∃ p, s.pendingPayments.find? (fun q => q.reference == rf) = some p ∧
      p.confirmed = true) :
    ∃ p, (processPayment uk rf sw a env s).1.pendingPayments.find?
        (fun q => q.reference == rf) = some p ∧ p.confirmed = true := by
  unfold processPayment
  dsimp only
  split_ifs <;> first | exact h | exact find_setPaidData rf _ _ h

end SunoLabs

namespace SunoLabs

/-- The dedup step on a state whose first matching record is already confirmed
is a no-op returning the already-processed success response. -/
lemma dedupStep_already (uk rf sw : String) (a : ℚ) (env : Env) (s : BotState)
    (h : ∃ p, s.pendingPayments.find? (fun q => q.reference == rf) = some p ∧
      p.confirmed = true) :
    dedupStep uk rf sw a env s = (s, Resp.alreadyProcessed, []) := by
  obtain ⟨p, hp, hc⟩ := h
  unfold dedupStep
  rw [hp]
  simp [hc]

/-- After any run of the dedup step, the first record matching the reference is
confirmed. -/
lemma dedupStep_confirmed (uk rf sw : String) (a : ℚ) (env : Env) (s : BotState) :
    ∃ p, (dedupStep uk rf sw a env s).1.pendingPayments.find?
        (fun q => q.reference == rf) = some p ∧ p.confirmed = true := by
  unfold dedupStep
  rcases hfind : s.pendingPayments.find? (fun q => q.reference == rf) with _ | p
  · rw [hfind]
    dsimp only
    exact processPayment_confirmed uk rf sw a env _ ⟨newPending uk rf, find_push uk rf _ hfind, rfl⟩
  · rw [hfind]
    dsimp only
    by_cases hc : p.confirmed = true
    · rw [if_pos hc]
      exact ⟨p, hfind, hc⟩
    · rw [if_neg hc]
      refine processPayment_confirmed uk rf sw a env _ ?_
      exact find_markConfirmed rf _ (by rw [hfind]; rfl)

/-- A request that passes validation carries a numeric amount. -/
lemma validOf_amount (req : Request) (hv : validOf req = true) :
    ∃ a, req.amount = some a := by
  unfold validOf at hv
  rcases h : req.amount with _ | a
  · rw [h] at hv
    split_ifs at hv
  · exact ⟨a, rfl⟩

/-- A request that fails validation is rejected with a 400 and no state change
or side effect. -/
lemma confirm_invalid (req : Request) (env : Env) (s : BotState)
    (hv : validOf req = false) :
    confirmPayment req env s = (s, Resp.badRequest, []) := by
  unfold confirmPayment validOf at *
  rcases h : req.amount with _ | a <;>
    split_ifs at hv ⊢ <;> simp_all

/-- A request that passes validation runs the dedup step on the extracted
fields. -/
lemma confirm_valid_eq (req : Request) (env : Env) (s : BotState) (a : ℚ)
    (hv : validOf req = true) (ha : req.amount = some a) :
    confirmPayment req env s =
      dedupStep (req.userId.getD "") (req.reference.getD "") (req.senderWallet.getD "")
        a env s := by
  unfold confirmPayment validOf at *
  rw [ha] at hv ⊢
  split_ifs at hv ⊢ <;> simp_all

end SunoLabs

/-- Claim C1: confirmPayment is idempotent per payment reference — a second
delivery of a confirmation for the same reference leaves the ledger state
exactly as after the first call, and when the first call was not rejected by
validation the re-delivery is a no-op that returns the already-processed
success response and issues no further side effect, so the payment side
effects are issued at most once and a reference moves from unconfirmed to
confirmed exactly once. -/
theorem confirmPayment_idempotent (req : SunoLabs.Request) (env env2 : SunoLabs.Env)
    (s : SunoLabs.BotState) :
    (SunoLabs.confirmPayment req env2 (SunoLabs.confirmPayment req env s).1).1 =
      (SunoLabs.confirmPayment req env s).1 ∧
    ((SunoLabs.confirmPayment req env s).2.1.is400 = false →
      SunoLabs.confirmPayment req env2 (SunoLabs.confirmPayment req env s).1 =
        ((SunoLabs.confirmPayment req env s).1, SunoLabs.Resp.alreadyProcessed, [])) := by
  by_cases hv : SunoLabs.validOf req = true
  · obtain ⟨a, ha⟩ := SunoLabs.validOf_amount req hv
    have h1 : ∃ p, (SunoLabs.confirmPayment req env s).1.pendingPayments.find?
        (fun q => q.reference == req.reference.getD "") = some p ∧ p.confirmed = true := by
      rw [SunoLabs.confirm_valid_eq req env s a hv ha]
      exact SunoLabs.dedupStep_confirmed _ _ _ a env s
    have h2 : SunoLabs.confirmPayment req env2 (SunoLabs.confirmPayment req env s).1 =
        ((SunoLabs.confirmPayment req env s).1, SunoLabs.Resp.alreadyProcessed, []) := by
      rw [SunoLabs.confirm_valid_eq req env2 _ a hv ha]
      exact SunoLabs.dedupStep_already _ _ _ a env2 _ h1
    exact ⟨by rw [h2], fun _ => h2⟩
  · have hv2 : SunoLabs.validOf req = false := by simpa using hv
    have e1 := SunoLabs.confirm_invalid req env s hv2
    have e2 := SunoLabs.confirm_invalid req env2 s hv2
    refine ⟨?_, ?_⟩
    · rw [e1]
      dsimp only
      rw [e2]
    · intro hf
      rw [e1] at hf
      simp [SunoLabs.Resp.is400] at hf

/-- Witness for C1: a concrete fresh payment of 0.01 SOL is processed once, and
the second delivery of the same reference is a no-op answering success. -/
theorem confirmPayment_idempotent_witness :
    (SunoLabs.confirmPayment
      { userId := some "1", reference := some "r", amount := some (1/100),
        senderWallet := some "W", senderWalletValid := true }
      { purchasedSUNO := 1000, transferOk := true, timestamp := 0 }
      { treasurySUNO := 0, transFeeCollected := 0, pendingPayments := [],
        participants := [], voters := [], phase := "submission",
        cycleStartTime := none, nextPhaseTime := none }).2.1.is400 = false ∧
    SunoLabs.confirmPayment
      { userId := some "1", reference := some "r", amount := some (1/100),
        senderWallet := some "W", senderWalletValid := true }
      { purchasedSUNO := 1000, transferOk := true, timestamp := 0 }
      (SunoLabs.confirmPayment
        { userId := some "1", reference := some "r", amount := some (1/100),
          senderWallet := some "W", senderWalletValid := true }
        { purchasedSUNO := 1000, transferOk := true, timestamp := 0 }
        { treasurySUNO := 0, transFeeCollected := 0, pendingPayments := [],
          participants := [], voters := [], phase := "submission",
          cycleStartTime := none, nextPhaseTime := none }).1 =
      ((SunoLabs.confirmPayment
        { userId := some "1", reference := some "r", amount := some (1/100),
          senderWallet := some "W", senderWalletValid := true }
        { purchasedSUNO := 1000, transferOk := true, timestamp := 0 }
        { treasurySUNO := 0, transFeeCollected := 0, pendingPayments := [],
          participants := [], voters := [], phase := "submission",
          cycleStartTime := none, nextPhaseTime := none }).1,
       SunoLabs.Resp.alreadyProcessed, []) := by
  have h400 : (SunoLabs.confirmPayment
      { userId := some "1", reference := some "r", amount := some (1/100),
        senderWallet := some "W", senderWalletValid := true }
      { purchasedSUNO := 1000, transferOk := true, timestamp := 0 }
      { treasurySUNO := 0, transFeeCollected := 0, pendingPayments := [],
        participants := [], voters := [], phase := "submission",
        cycleStartTime := none, nextPhaseTime := none }).2.1.is400 = false := by
    norm_num [SunoLabs.confirmPayment, SunoLabs.dedupStep, SunoLabs.processPayment,
      SunoLabs.validOf, SunoLabs.falsyStr, SunoLabs.newPending, SunoLabs.retentionOf,
      SunoLabs.getTier, SunoLabs.getWhaleRetention, SunoLabs.TIERS_WHALE, SunoLabs.TIERS_HIGH,
      SunoLabs.TIERS_MID, SunoLabs.TIERS_BASIC, SunoLabs.jsChoice, List.find?,
      SunoLabs.setPaidData, SunoLabs.markConfirmed]
    rw [if_neg (by decide)]
    rfl
  exact ⟨h400, (confirmPayment_idempotent
    { userId := some "1", reference := some "r", amount := some (1/100),
      senderWallet := some "W", senderWalletValid := true }
    { purchasedSUNO := 1000, transferOk := true, timestamp := 0 }
    { purchasedSUNO := 1000, transferOk := true, timestamp := 0 }
    { treasurySUNO := 0, transFeeCollected := 0, pendingPayments := [],
      participants := [], voters := [], phase := "submission",
      cycleStartTime := none, nextPhaseTime := none }).2 h400⟩

namespace SunoLabs

/-- On a successful first-time run, processPayment adds the 10 percent fee to
the fee counter, buys with the remaining 90 percent, answers with the floored
user share of the purchased tokens and credits the treasury with the exact
remainder. -/
lemma processPayment_spec (uk rf sw : String) (a : ℚ) (env : Env) (s : BotState)
    (hT : env.purchasedSUNO ≠ 0) (htr : env.transferOk = true) :
    (processPayment uk rf sw a env s).1.transFeeCollected =
        s.transFeeCollected + a * (10/100) ∧
    (processPayment uk rf sw a env s).1.treasurySUNO =
        s.treasurySUNO + (env.purchasedSUNO -
          Nat.floor ((env.purchasedSUNO : ℚ) * retentionOf a)) ∧
    (processPayment uk rf sw a env s).2.1 =
        Resp.success (Nat.floor ((env.purchasedSUNO : ℚ) * retentionOf a)) ∧
    (processPayment uk rf sw a env s).2.2 =
        [Effect.feeTransfer (a * (10/100)), Effect.marketBuy (a * (90/100)),
         Effect.tokenTransfer (Nat.floor ((env.purchasedSUNO : ℚ) * retentionOf a)) sw] := by
  unfold processPayment
  dsimp only
  rw [if_neg hT, if_neg (by simp [htr])]
  split_ifs <;> exact ⟨rfl, rfl, rfl, rfl⟩

/-- The floored user share never exceeds the purchased total, since the
retention fraction is at most one. -/
lemma floor_retention_le (T : ℕ) (a : ℚ) :
    Nat.floor ((T : ℚ) * retentionOf a) ≤ T := by
  have h1 := (retentionOf_bounds a).2
  have h0 : (0:ℚ) ≤ retentionOf a := le_trans (by norm_num) (retentionOf_bounds a).1
  calc Nat.floor ((T : ℚ) * retentionOf a) ≤ Nat.floor ((T : ℚ) * 1) := by
        apply Nat.floor_le_floor
        apply mul_le_mul_of_nonneg_left _ (by positivity)
        linarith
    _ = T := by simp

end SunoLabs

/-- Claim C3: on a first-time confirmed payment of amount A the fee is A times
0.10 routed to the fee wallet, the purchase is funded with the remaining
A times 0.90 which equals A minus the fee, and when the purchase yields T
tokens the user share is T times the retention of A rounded down while the
pool share is the exact remainder, so the two always sum to T. -/
theorem confirmPayment_split (req : SunoLabs.Request) (env : SunoLabs.Env)
    (s : SunoLabs.BotState) (a : ℚ)
    (hv : SunoLabs.validOf req = true)
    (ha : req.amount = some a)
    (hfirst : ∀ p, s.pendingPayments.find?
        (fun q => q.reference == req.reference.getD "") = some p → p.confirmed = false)
    (hT : env.purchasedSUNO ≠ 0) (htr : env.transferOk = true) :
    (SunoLabs.confirmPayment req env s).1.transFeeCollected =
        s.transFeeCollected + a * (10/100) ∧
    a * (90/100) = a - a * (10/100) ∧
    (SunoLabs.confirmPayment req env s).2.2 =
        [SunoLabs.Effect.feeTransfer (a * (10/100)),
         SunoLabs.Effect.marketBuy (a * (90/100)),
         SunoLabs.Effect.tokenTransfer
           (Nat.floor ((env.purchasedSUNO : ℚ) * SunoLabs.retentionOf a))
           (req.senderWallet.getD "")] ∧
    (SunoLabs.confirmPayment req env s).2.1 =
        SunoLabs.Resp.success
          (Nat.floor ((env.purchasedSUNO : ℚ) * SunoLabs.retentionOf a)) ∧
    (SunoLabs.confirmPayment req env s).1.treasurySUNO =
        s.treasurySUNO + (env.purchasedSUNO -
          Nat.floor ((env.purchasedSUNO : ℚ) * SunoLabs.retentionOf a)) ∧
    Nat.floor ((env.purchasedSUNO : ℚ) * SunoLabs.retentionOf a) +
        (env.purchasedSUNO -
          Nat.floor ((env.purchasedSUNO : ℚ) * SunoLabs.retentionOf a)) =
      env.purchasedSUNO := by
  rw [SunoLabs.confirm_valid_eq req env s a hv ha]
  have hsum := Nat.add_sub_cancel' (SunoLabs.floor_retention_le env.purchasedSUNO a)
  unfold SunoLabs.dedupStep
  rcases hfind : s.pendingPayments.find?
      (fun q => q.reference == req.reference.getD "") with _ | p
  · rw [hfind]
    dsimp only
    have hspec := SunoLabs.processPayment_spec (req.userId.getD "")
      (req.reference.getD "") (req.senderWallet.getD "") a env
      { s with pendingPayments := s.pendingPayments ++
          [SunoLabs.newPending (req.userId.getD "") (req.reference.getD "")] } hT htr
    exact ⟨hspec.1, by ring, hspec.2.2.2, hspec.2.2.1, hspec.2.1, hsum⟩
  · have hc := hfirst p hfind
    rw [hfind]
    dsimp only
    rw [if_neg (by simp [hc])]
    have hspec := SunoLabs.processPayment_spec (req.userId.getD "")
      (req.reference.getD "") (req.senderWallet.getD "") a env
      { s with pendingPayments :=
          SunoLabs.markConfirmed s.pendingPayments (req.reference.getD "") } hT htr
    exact ⟨hspec.1, by ring, hspec.2.2.2, hspec.2.2.1, hspec.2.1, hsum⟩

/-- Witness for C3: the fresh 0.01 SOL payment of the idempotence witness,
with a purchase of 1000 tokens, splits into a 500 token user share and a 500
token pool share. -/
theorem confirmPayment_split_witness :
    SunoLabs.validOf
      { userId := some "1", reference := some "r", amount := some (1/100),
        senderWallet := some "W", senderWalletValid := true } = true ∧
    (SunoLabs.confirmPayment
      { userId := some "1", reference := some "r", amount := some (1/100),
        senderWallet := some "W", senderWalletValid := true }
      { purchasedSUNO := 1000, transferOk := true, timestamp := 0 }
      { treasurySUNO := 0, transFeeCollected := 0, pendingPayments := [],
        participants := [], voters := [], phase := "submission",
        cycleStartTime := none, nextPhaseTime := none }).1.transFeeCollected =
      0 + (1/100) * (10/100) ∧
    Nat.floor ((1000 : ℚ) * SunoLabs.retentionOf (1/100)) +
        (1000 - Nat.floor ((1000 : ℚ) * SunoLabs.retentionOf (1/100))) = 1000 := by
  have hv : SunoLabs.validOf
      { userId := some "1", reference := some "r", amount := some (1/100),
        senderWallet := some "W", senderWalletValid := true } = true := by
    norm_num [SunoLabs.validOf, SunoLabs.falsyStr]
    decide
  have h := confirmPayment_split
    { userId := some "1", reference := some "r", amount := some (1/100),
      senderWallet := some "W", senderWalletValid := true }
    { purchasedSUNO := 1000, transferOk := true, timestamp := 0 }
    { treasurySUNO := 0, transFeeCollected := 0, pendingPayments := [],
      participants := [], voters := [], phase := "submission",
      cycleStartTime := none, nextPhaseTime := none }
    (1/100) hv rfl (by intro p hp; simp [List.find?] at hp) (by norm_num) rfl
  exact ⟨hv, h.1, h.2.2.2.2.2⟩

/-- Claim C10: a confirm-payment request with a missing (or empty, which JS
treats the same) userId, reference or senderWallet, or whose amount does not
parse to a number between 0.001 and 100 inclusive, or whose senderWallet is
not a well-formed public key, is answered with HTTP 400 and the whole state —
pending payments, participants, voters, treasury and collected fees — is left
unchanged, with no side effect issued. -/
theorem confirmPayment_validation (req : SunoLabs.Request) (env : SunoLabs.Env)
    (s : SunoLabs.BotState)
    (h : SunoLabs.falsyStr req.userId = true ∨ SunoLabs.falsyStr req.reference = true ∨
      SunoLabs.falsyStr req.senderWallet = true ∨ req.amount = none ∨
      (∃ a, req.amount = some a ∧ (a < 1/1000 ∨ 100 < a)) ∨
      req.senderWalletValid = false) :
    SunoLabs.confirmPayment req env s = (s, SunoLabs.Resp.badRequest, []) := by
  apply SunoLabs.confirm_invalid
  unfold SunoLabs.validOf
  rcases ham : req.amount with _ | a <;>
    rcases h with h | h | h | h | ⟨b, hb, hab⟩ | h <;>
      split_ifs <;> simp_all

/-- Witness for C10: an otherwise well-formed request paying 200 SOL is
rejected with a 400 and the empty initial state is untouched. -/
theorem confirmPayment_validation_witness :
    SunoLabs.confirmPayment
      { userId := some "1", reference := some "r", amount := some 200,
        senderWallet := some "W", senderWalletValid := true }
      { purchasedSUNO := 1000, transferOk := true, timestamp := 0 }
      { treasurySUNO := 0, transFeeCollected := 0, pendingPayments := [],
        participants := [], voters := [], phase := "submission",
        cycleStartTime := none, nextPhaseTime := none } =
      ({ treasurySUNO := 0, transFeeCollected := 0, pendingPayments := [],
         participants := [], voters := [], phase := "submission",
         cycleStartTime := none, nextPhaseTime := none },
       SunoLabs.Resp.badRequest, []) :=
  confirmPayment_validation _ _ _
    (Or.inr (Or.inr (Or.inr (Or.inr (Or.inl ⟨200, rfl, Or.inr (by norm_num)⟩)))))

/-- Counterexample for C4: in src/index.js the confirm-payment path performs no
duplicate-identity check — starting from a submission-phase state that already
holds a paid Entry for identity u, confirming a second upload payment for u
appends a second Entry, leaving two Entries for the same identity in one round. -/
theorem duplicate_entry_cex :
    ((SunoLabs.confirmPayment
      { userId := some "u", reference := some "r2", amount := some (1/100),
        senderWallet := some "W", senderWalletValid := true }
      { purchasedSUNO := 1000, transferOk := true, timestamp := 0 }
      { treasurySUNO := 0, transFeeCollected := 0,
        pendingPayments := [
          { userId := "u", choice := some "upload", reference := "r2",
            confirmed := false, paid := false, track := some "t2", title := some "s2",
            user := some "atu", userData := none }],
        participants := [
          { userId := "u", wallet := "W", amount := 1/100, sunoReceived := 500,
            tier := "Basic", tierBadge := "B", retention := 1/2, multiplier := 1, paid := true,
            timestamp := 0, choice := "upload", user := some "atu", track := some "t1",
            title := some "s1", votes := 0, voters := [], votedFor := none }],
        voters := [], phase := "submission",
        cycleStartTime := none, nextPhaseTime := none }).1.participants.filter
      (fun p => p.userId == "u")).length = 2 := by
  norm_num [SunoLabs.confirmPayment, SunoLabs.dedupStep, SunoLabs.processPayment,
    SunoLabs.validOf, SunoLabs.falsyStr, SunoLabs.newPending, SunoLabs.retentionOf,
    SunoLabs.getTier, SunoLabs.getWhaleRetention, SunoLabs.TIERS_WHALE, SunoLabs.TIERS_HIGH,
    SunoLabs.TIERS_MID, SunoLabs.TIERS_BASIC, SunoLabs.jsChoice, List.find?,
    SunoLabs.setPaidData, SunoLabs.markConfirmed, List.filter, SunoLabs.participantFromData,
    SunoLabs.voterFromData]

/-- Claim C4 as amended: in the part_002 variant the audio-message handler does
enforce the invariant — an audio message from an identity that already has a
submission this round appends no new submission (a paid one is rejected, an
unpaid one only refreshes the payment link), and the handler preserves the
at-most-one-submission-per-identity property of the ledger; in src/index.js the
confirm-payment registration path has no such check and can append a second
Entry for an identity that already has one. -/
theorem p2_no_duplicate_entry (uid user track title reference : String) (s : P2.P2State) :
    ((∃ sub ∈ s.submissions, sub.userId = uid) →
      (P2.handleAudio uid user track title reference s).1.submissions = s.submissions) ∧
    ((∀ id : String, (s.submissions.filter (fun sub => sub.userId == id)).length ≤ 1) →
      ∀ id : String,
        ((P2.handleAudio uid user track title reference s).1.submissions.filter
          (fun sub => sub.userId == id)).length ≤ 1) := by
  constructor
  · intro hdup
    unfold P2.handleAudio
    split_ifs with h1 h2 h3
    · rfl
    · rfl
    · rfl
    · exfalso
      obtain ⟨sub, hmem, hid⟩ := hdup
      cases hpaid : sub.paid
      · exact h3 (by rw [List.find?_isSome]; exact ⟨sub, hmem, by simp [hid, hpaid]⟩)
      · exact h2 (by rw [List.find?_isSome]; exact ⟨sub, hmem, by simp [hid, hpaid]⟩)
  · intro hmax id
    unfold P2.handleAudio
    split_ifs with h1 h2 h3
    · exact hmax id
    · exact hmax id
    · exact hmax id
    · have hnone : ∀ sub ∈ s.submissions, ¬ sub.userId = uid := by
        intro sub hmem hid
        cases hpaid : sub.paid
        · exact h3 (by rw [List.find?_isSome]; exact ⟨sub, hmem, by simp [hid, hpaid]⟩)
        · exact h2 (by rw [List.find?_isSome]; exact ⟨sub, hmem, by simp [hid, hpaid]⟩)
      dsimp only
      rw [List.filter_append, List.length_append]
      by_cases hid : uid = id
      · have hold : s.submissions.filter (fun sub => sub.userId == id) = [] := by
          rw [List.filter_eq_nil_iff]
          intro sub hmem
          simp [hid ▸ hnone sub hmem]
        rw [hold]
        simp [hid]
      · have hbeq : (uid == id) = false := by simp [hid]
        have hnew : List.filter (fun sub => sub.userId == id)
            [({ user := user, userId := uid, track := track, title := title, votes := 0,
                voters := [], paid := false, wallet := none, amountPaid := 0, multiplier := 1,
                badge := none, tier := none } : P2.Submission)] = [] := by
          simp [List.filter, hbeq]
        rw [hnew]
        simpa using hmax id

/-- Witness for C4 as amended: with one existing submission for identity u in
the submission phase, a second audio from u changes the submissions list not at
all, and the ledger keeps at most one submission per identity. -/
theorem p2_no_duplicate_entry_witness :
    (P2.handleAudio "u" "atu" "t2" "s2" "r2"
      { potSOL := 0, pendingPayments := [], submissions := [
          { user := "atu", userId := "u", track := "t1", title := "s1", votes := 0,
            voters := [], paid := false, wallet := none, amountPaid := 0, multiplier := 1,
            badge := none, tier := none }],
        phase := "submission", cycleStartTime := none,
        nextPhaseTime := none }).1.submissions = [
      ({ user := "atu", userId := "u", track := "t1", title := "s1", votes := 0,
         voters := [], paid := false, wallet := none, amountPaid := 0, multiplier := 1,
         badge := none, tier := none } : P2.Submission)] ∧
    ∀ id : String,
      ((P2.handleAudio "u" "atu" "t2" "s2" "r2"
        { potSOL := 0, pendingPayments := [], submissions := [
            { user := "atu", userId := "u", track := "t1", title := "s1", votes := 0,
              voters := [], paid := false, wallet := none, amountPaid := 0, multiplier := 1,
              badge := none, tier := none }],
          phase := "submission", cycleStartTime := none,
          nextPhaseTime := none }).1.submissions.filter
        (fun sub => sub.userId == id)).length ≤ 1 := by
  have h := p2_no_duplicate_entry "u" "atu" "t2" "s2" "r2"
    { potSOL := 0, pendingPayments := [], submissions := [
        { user := "atu", userId := "u", track := "t1", title := "s1", votes := 0,
          voters := [], paid := false, wallet := none, amountPaid := 0, multiplier := 1,
          badge := none, tier := none }],
      phase := "submission", cycleStartTime := none, nextPhaseTime := none }
  refine ⟨h.1 ⟨_, List.mem_singleton.mpr rfl, rfl⟩, h.2 ?_⟩
  intro id
  simp only [List.filter]
  split <;> simp

/-- Counterexample for C5: vote dedup in src/index.js is per entry, not per
voter — a voter who already voted for entry a and is recorded with votedFor a
can then vote for entry b: the vote is accepted, entry b gains a vote and the
voter record silently switches votedFor from a to b. -/
theorem vote_switch_cex :
    (SunoLabs.handleVote "b" "v"
      { treasurySUNO := 0, transFeeCollected := 0, pendingPayments := [],
        participants := [
          { userId := "a", wallet := "W", amount := 1/100, sunoReceived := 500,
            tier := "Basic", tierBadge := "B", retention := 1/2, multiplier := 1, paid := true,
            timestamp := 0, choice := "upload", user := some "ata", track := some "t1",
            title := some "s1", votes := 1, voters := ["v"], votedFor := none },
          { userId := "b", wallet := "W2", amount := 1/100, sunoReceived := 500,
            tier := "Basic", tierBadge := "B", retention := 1/2, multiplier := 1, paid := true,
            timestamp := 0, choice := "upload", user := some "atb", track := some "t2",
            title := some "s2", votes := 0, voters := [], votedFor := none }],
        voters := [
          { userId := "v", wallet := "W3", amount := 1/100, sunoReceived := 500,
            tier := "Basic", tierBadge := "B", retention := 1/2, multiplier := 1, paid := true,
            timestamp := 0, choice := "vote", user := none, track := none,
            title := none, votes := 0, voters := [], votedFor := some "a" }],
        phase := "voting", cycleStartTime := none, nextPhaseTime := none }).2 =
      SunoLabs.VoteAns.voted ∧
    ((SunoLabs.handleVote "b" "v"
      { treasurySUNO := 0, transFeeCollected := 0, pendingPayments := [],
        participants := [
          { userId := "a", wallet := "W", amount := 1/100, sunoReceived := 500,
            tier := "Basic", tierBadge := "B", retention := 1/2, multiplier := 1, paid := true,
            timestamp := 0, choice := "upload", user := some "ata", track := some "t1",
            title := some "s1", votes := 1, voters := ["v"], votedFor := none },
          { userId := "b", wallet := "W2", amount := 1/100, sunoReceived := 500,
            tier := "Basic", tierBadge := "B", retention := 1/2, multiplier := 1, paid := true,
            timestamp := 0, choice := "upload", user := some "atb", track := some "t2",
            title := some "s2", votes := 0, voters := [], votedFor := none }],
        voters := [
          { userId := "v", wallet := "W3", amount := 1/100, sunoReceived := 500,
            tier := "Basic", tierBadge := "B", retention := 1/2, multiplier := 1, paid := true,
            timestamp := 0, choice := "vote", user := none, track := none,
            title := none, votes := 0, voters := [], votedFor := some "a" }],
        phase := "voting", cycleStartTime := none, nextPhaseTime := none }).1.voters.map
      (fun v => v.votedFor)) = [some "b"] ∧
    ((SunoLabs.handleVote "b" "v"
      { treasurySUNO := 0, transFeeCollected := 0, pendingPayments := [],
        participants := [
          { userId := "a", wallet := "W", amount := 1/100, sunoReceived := 500,
            tier := "Basic", tierBadge := "B", retention := 1/2, multiplier := 1, paid := true,
            timestamp := 0, choice := "upload", user := some "ata", track := some "t1",
            title := some "s1", votes := 1, voters := ["v"], votedFor := none },
          { userId := "b", wallet := "W2", amount := 1/100, sunoReceived := 500,
            tier := "Basic", tierBadge := "B", retention := 1/2, multiplier := 1, paid := true,
            timestamp := 0, choice := "upload", user := some "atb", track := some "t2",
            title := some "s2", votes := 0, voters := [], votedFor := none }],
        voters := [
          { userId := "v", wallet := "W3", amount := 1/100, sunoReceived := 500,
            tier := "Basic", tierBadge := "B", retention := 1/2, multiplier := 1, paid := true,
            timestamp := 0, choice := "vote", user := none, track := none,
            title := none, votes := 0, voters := [], votedFor := some "a" }],
        phase := "voting", cycleStartTime := none, nextPhaseTime := none }).1.participants.map
      (fun p => p.votes)) = [1, 1] := by
  refine ⟨?_, ?_, ?_⟩ <;>
    norm_num [SunoLabs.handleVote, SunoLabs.bumpVote, SunoLabs.setVotedFor, List.find?,
      List.map, show (("a" : String) == "b") = false from by decide]

/-- Claim C5 as amended: dedup is per pair of entry and voter — when the voter
already appears in the target Entry voter set, the repeated vote for that same
Entry is rejected with an already-voted answer and the whole state is left
unchanged; a later vote by the same voter for a different Entry, however, is
accepted and overwrites votedFor (shown by the counterexample). -/
theorem handleVote_per_entry_dedup (targetId voterId : String) (s : SunoLabs.BotState)
    (entry : SunoLabs.Participant)
    (hf : s.participants.find? (fun p => p.userId == targetId) = some entry)
    (hv : voterId ∈ entry.voters) :
    SunoLabs.handleVote targetId voterId s = (s, SunoLabs.VoteAns.alreadyVoted) := by
  unfold SunoLabs.handleVote
  rw [hf]
  dsimp only
  rw [if_pos hv]

/-- Witness for C5 as amended: the same voter pressing vote twice on the same
entry gets the already-voted answer and nothing changes. -/
theorem handleVote_per_entry_dedup_witness :
    SunoLabs.handleVote "a" "v"
      { treasurySUNO := 0, transFeeCollected := 0, pendingPayments := [],
        participants := [
          { userId := "a", wallet := "W", amount := 1/100, sunoReceived := 500,
            tier := "Basic", tierBadge := "B", retention := 1/2, multiplier := 1, paid := true,
            timestamp := 0, choice := "upload", user := some "ata", track := some "t1",
            title := some "s1", votes := 1, voters := ["v"], votedFor := none }],
        voters := [], phase := "voting", cycleStartTime := none, nextPhaseTime := none } =
      ({ treasurySUNO := 0, transFeeCollected := 0, pendingPayments := [],
         participants := [
           { userId := "a", wallet := "W", amount := 1/100, sunoReceived := 500,
             tier := "Basic", tierBadge := "B", retention := 1/2, multiplier := 1, paid := true,
             timestamp := 0, choice := "upload", user := some "ata", track := some "t1",
             title := some "s1", votes := 1, voters := ["v"], votedFor := none }],
         voters := [], phase := "voting", cycleStartTime := none, nextPhaseTime := none },
       SunoLabs.VoteAns.alreadyVoted) := by
  exact handleVote_per_entry_dedup "a" "v" _
    { userId := "a", wallet := "W", amount := 1/100, sunoReceived := 500,
      tier := "Basic", tierBadge := "B", retention := 1/2, multiplier := 1, paid := true,
      timestamp := 0, choice := "upload", user := some "ata", track := some "t1",
      title := some "s1", votes := 1, voters := ["v"], votedFor := none }
    (by simp [List.find?]) (by simp)

/-- Counterexample for C8: in the part_002 variant, when the submission
deadline fires with zero paid submissions the phase field is left at
submission during the one-minute wait — it never becomes cooldown, refuting
the claimed direct submission-to-cooldown transition for that variant (voting
is still skipped and no voting-started notice is posted). -/
theorem skip_phase_cex :
    (P2.startVoting 0
      { potSOL := 0, pendingPayments := [], submissions := [],
        phase := "submission", cycleStartTime := none, nextPhaseTime := none }).1.phase =
      "submission" ∧
    (P2.startVoting 0
      { potSOL := 0, pendingPayments := [], submissions := [],
        phase := "submission", cycleStartTime := none, nextPhaseTime := none }).1.phase ≠
      "cooldown" ∧
    (P2.startVoting 0
      { potSOL := 0, pendingPayments := [], submissions := [],
        phase := "submission", cycleStartTime := none, nextPhaseTime := none }).2.1 =
      [SunoLabs.ChanMsg.noEntries] := by
  refine ⟨?_, ?_, ?_⟩ <;> simp [P2.startVoting, List.filter]

/-- Claim C8 as amended: when startVoting fires with zero paid uploads, the
src/index.js variant sets the phase straight to cooldown, posts only the
no-entries notice (so no voting-started notification is ever emitted) and
schedules the next cycle; the part_002 variant equally skips voting and posts
no voting-started notification, but leaves its phase field at its previous
value instead of cooldown. -/
theorem startVoting_skip (now : ℚ) (s : SunoLabs.BotState) (t : P2.P2State)
    (h1 : s.participants.filter (fun p => p.choice == "upload" && p.paid) = [])
    (h2 : t.submissions.filter (fun sub => sub.paid) = []) :
    (SunoLabs.startVoting now s).1.phase = "cooldown" ∧
    (SunoLabs.startVoting now s).2.1 = [SunoLabs.ChanMsg.noEntries] ∧
    (SunoLabs.startVoting now s).2.2.1 = SunoLabs.Scheduled.startNewCycle ∧
    (P2.startVoting now t).1.phase = t.phase ∧
    (P2.startVoting now t).2.1 = [SunoLabs.ChanMsg.noEntries] ∧
    (P2.startVoting now t).2.2.1 = SunoLabs.Scheduled.startNewCycle := by
  unfold SunoLabs.startVoting P2.startVoting
  rw [h1, h2]
  simp

/-- Witness for C8 as amended at a concrete empty round in both variants. -/
theorem startVoting_skip_witness :
    (SunoLabs.startVoting 0
      { treasurySUNO := 0, transFeeCollected := 0, pendingPayments := [],
        participants := [], voters := [], phase := "submission",
        cycleStartTime := none, nextPhaseTime := none }).1.phase = "cooldown" ∧
    (SunoLabs.startVoting 0
      { treasurySUNO := 0, transFeeCollected := 0, pendingPayments := [],
        participants := [], voters := [], phase := "submission",
        cycleStartTime := none, nextPhaseTime := none }).2.1 =
      [SunoLabs.ChanMsg.noEntries] ∧
    (SunoLabs.startVoting 0
      { treasurySUNO := 0, transFeeCollected := 0, pendingPayments := [],
        participants := [], voters := [], phase := "submission",
        cycleStartTime := none, nextPhaseTime := none }).2.2.1 =
      SunoLabs.Scheduled.startNewCycle := by
  have h := startVoting_skip 0
    { treasurySUNO := 0, transFeeCollected := 0, pendingPayments := [],
      participants := [], voters := [], phase := "submission",
      cycleStartTime := none, nextPhaseTime := none }
    { potSOL := 0, pendingPayments := [], submissions := [],
      phase := "submission", cycleStartTime := none, nextPhaseTime := none }
    (by simp [List.filter]) (by simp [List.filter])
  exact ⟨h.1, h.2.1, h.2.2.1⟩

/-- Claim C9: persisting the state and reloading it reproduces the very same
ledger — entries, voters, phase, timestamps, treasury and fee balances and
pending payments — provided the stored phase is a non-empty string and neither
stored timestamp is the JS-falsy number 0 (the or-else fallbacks of loadState
would rewrite those); and a restart mid-voting-phase resumes with the phase
still voting and reschedules the winner announcement for the persisted
deadline minus the current wall clock, firing on the nominal immediate
1 second delay when that deadline has already elapsed. -/
theorem persistence_roundtrip (s : SunoLabs.BotState) (now : ℚ)
    (hph : ¬ s.phase = "")
    (hc : ¬ s.cycleStartTime = some 0)
    (hn : ¬ s.nextPhaseTime = some 0) :
    SunoLabs.loadState (SunoLabs.saveState s) = s ∧
    (s.phase = "voting" → ¬ s.cycleStartTime = none →
      SunoLabs.startupSchedule (SunoLabs.loadState (SunoLabs.saveState s)) now =
        (SunoLabs.Scheduled.announceWinners,
          if s.nextPhaseTime.getD 0 - now ≤ 0 then 1000
          else s.nextPhaseTime.getD 0 - now)) := by
  have hload : SunoLabs.loadState (SunoLabs.saveState s) = s := by
    rcases s with ⟨t, f, pp, pa, vo, ph, c, n⟩
    rcases c with _ | cv <;> rcases n with _ | nv <;>
      simp_all [SunoLabs.loadState, SunoLabs.saveState, SunoLabs.jsOrNull]
  refine ⟨hload, ?_⟩
  intro hvot hcs
  rw [hload]
  have h1 : SunoLabs.falsyNum s.cycleStartTime = false := by
    rcases hcv : s.cycleStartTime with _ | x
    · exact absurd hcv hcs
    · have hx : ¬ x = 0 := by
        intro hx0
        exact hc (by rw [hcv, hx0])
      simp [SunoLabs.falsyNum, hx]
  unfold SunoLabs.startupSchedule
  simp [h1, hvot, show (("voting" : String) == "cooldown") = false from by decide,
    show (("voting" : String) == "submission") = false from by decide]
  split_ifs <;> rfl

/-- Witness for C9: a concrete state persisted mid-voting reloads identically
and reschedules the winner announcement for the remaining 400000 milliseconds. -/
theorem persistence_roundtrip_witness :
    SunoLabs.loadState (SunoLabs.saveState
      { treasurySUNO := 7, transFeeCollected := 1/10, pendingPayments := [],
        participants := [], voters := [], phase := "voting",
        cycleStartTime := some 1, nextPhaseTime := some 500000 }) =
      { treasurySUNO := 7, transFeeCollected := 1/10, pendingPayments := [],
        participants := [], voters := [], phase := "voting",
        cycleStartTime := some 1, nextPhaseTime := some 500000 } ∧
    SunoLabs.startupSchedule (SunoLabs.loadState (SunoLabs.saveState
      { treasurySUNO := 7, transFeeCollected := 1/10, pendingPayments := [],
        participants := [], voters := [], phase := "voting",
        cycleStartTime := some 1, nextPhaseTime := some 500000 })) 100000 =
      (SunoLabs.Scheduled.announceWinners, 400000) := by
  have h := persistence_roundtrip
    { treasurySUNO := 7, transFeeCollected := 1/10, pendingPayments := [],
      participants := [], voters := [], phase := "voting",
      cycleStartTime := some 1, nextPhaseTime := some 500000 }
    100000 (by decide) (by norm_num) (by norm_num)
  refine ⟨h.1, ?_⟩
  have h2 := h.2 rfl (by simp)
  rw [h2]
  norm_num

namespace SunoLabs

/-! ## Winner payout bounds -/

/-- Membership in an insertion step comes from the inserted element or the list. -/
lemma mem_insertByVotes (x y : Participant) (l : List Participant)
    (h : x ∈ insertByVotes y l) : x = y ∨ x ∈ l := by
  induction l with
  | nil => simpa [insertByVotes] using h
  | cons z zs ih =>
    unfold insertByVotes at h
    by_cases hc : z.votes < y.votes
    · rw [if_pos hc] at h
      rcases List.mem_cons.mp h with h2 | h2
      · exact Or.inl h2
      · exact Or.inr h2
    · rw [if_neg hc] at h
      rcases List.mem_cons.mp h with h2 | h2
      · exact Or.inr (by simp [h2])
      · rcases ih h2 with h3 | h3
        · exact Or.inl h3
        · exact Or.inr (by simp [h3])

/-- The vote sort is a permutation-style rearrangement: membership is preserved. -/
lemma mem_sortByVotes (x : Participant) (l : List Participant)
    (h : x ∈ sortByVotes l) : x ∈ l := by
  induction l with
  | nil => simp [sortByVotes] at h
  | cons z zs ih =>
    unfold sortByVotes at h
    rcases mem_insertByVotes x z (sortByVotes zs) h with h2 | h2
    · simp [h2]
    · simp [ih h2]

/-- A floored base share is at most the exact weighted share. -/
lemma baseAmt_le (P : ℕ) (w : ℚ) (hw : 0 ≤ w) : (baseAmt P w : ℚ) ≤ (P : ℚ) * w := by
  unfold baseAmt
  exact Nat.floor_le (by positivity)

/-- A final payout is at most three halves of the exact weighted share when the
entry multiplier is at most three halves. -/
lemma finalAmt_le (P : ℕ) (w m : ℚ) (hw : 0 ≤ w) (hm : m ≤ 3/2) :
    (finalAmt P w m : ℚ) ≤ (3/2) * ((P : ℚ) * w) := by
  unfold finalAmt
  have hb : (baseAmt P w : ℚ) ≤ (P : ℚ) * w := baseAmt_le P w hw
  have hb0 : (0 : ℚ) ≤ (baseAmt P w : ℚ) := by positivity
  by_cases hbm : 0 ≤ (baseAmt P w : ℚ) * m
  · calc (Nat.floor ((baseAmt P w : ℚ) * m) : ℚ) ≤ (baseAmt P w : ℚ) * m :=
        Nat.floor_le hbm
      _ ≤ (3/2) * ((P : ℚ) * w) := by nlinarith
  · push_neg at hbm
    rw [Nat.floor_of_nonpos (le_of_lt hbm)]
    have hpw : (0 : ℚ) ≤ (P : ℚ) * w := by positivity
    simp
    nlinarith

/-- Sum bound for the base shares over the zipped weight prefix. -/
lemma zip_base_le (P : ℕ) (ws : List ℚ) :
    ∀ es : List Participant, (∀ w ∈ ws, 0 ≤ w) →
      (((ws.zip es).map (fun we => (baseAmt P we.1 : ℚ))).sum) ≤ (P : ℚ) * ws.sum := by
  induction ws with
  | nil => intro es h; simp
  | cons w ws ih =>
    intro es h
    have hw : 0 ≤ w := h w (by simp)
    have hws : ∀ v ∈ ws, 0 ≤ v := fun v hv => h v (by simp [hv])
    have hsum : 0 ≤ ws.sum := List.sum_nonneg hws
    cases es with
    | nil =>
      simp only [List.zip_nil_right, List.map_nil, List.sum_nil, List.sum_cons]
      positivity
    | cons e es =>
      simp only [List.zip_cons_cons, List.map_cons, List.sum_cons]
      have h1 := baseAmt_le P w hw
      have h2 := ih es hws
      calc (baseAmt P w : ℚ) + ((ws.zip es).map (fun we => (baseAmt P we.1 : ℚ))).sum
          ≤ (P : ℚ) * w + (P : ℚ) * ws.sum := by linarith
        _ = (P : ℚ) * (w + ws.sum) := by ring

/-- Sum bound for the final payouts over the zipped weight prefix. -/
lemma zip_final_le (P : ℕ) (ws : List ℚ) :
    ∀ es : List Participant, (∀ w ∈ ws, 0 ≤ w) → (∀ e ∈ es, e.multiplier ≤ 3/2) →
      (((ws.zip es).map (fun we => (finalAmt P we.1 we.2.multiplier : ℚ))).sum) ≤
        (3/2) * ((P : ℚ) * ws.sum) := by
  induction ws with
  | nil => intro es h hm; simp
  | cons w ws ih =>
    intro es h hm
    have hw : 0 ≤ w := h w (by simp)
    have hws : ∀ v ∈ ws, 0 ≤ v := fun v hv => h v (by simp [hv])
    have hsum : 0 ≤ ws.sum := List.sum_nonneg hws
    cases es with
    | nil =>
      simp only [List.zip_nil_right, List.map_nil, List.sum_nil, List.sum_cons]
      positivity
    | cons e es =>
      simp only [List.zip_cons_cons, List.map_cons, List.sum_cons]
      have h1 := finalAmt_le P w e.multiplier hw (hm e (by simp))
      have h2 := ih es hws (fun x hx => hm x (by simp [hx]))
      calc (finalAmt P w e.multiplier : ℚ) +
            ((ws.zip es).map (fun we => (finalAmt P we.1 we.2.multiplier : ℚ))).sum
          ≤ (3/2) * ((P : ℚ) * w) + (3/2) * ((P : ℚ) * ws.sum) := by linarith
        _ = (3/2) * ((P : ℚ) * (w + ws.sum)) := by ring

/-- The weight vector entries are nonnegative. -/
lemma weights_nonneg : ∀ w ∈ weights, (0 : ℚ) ≤ w := by
  intro w hw
  simp only [weights, List.mem_cons, List.not_mem_nil, or_false] at hw
  rcases hw with rfl | rfl | rfl | rfl | rfl <;> norm_num

/-- The weight vector sums to exactly one. -/
lemma weights_sum : weights.sum = 1 := by
  simp [weights]
  norm_num

end SunoLabs

/-- Counterexample for C2: with an at-stake pool of 800 (treasury 1000) and
five paid whale entries each carrying the maximal stored multiplier 1.5, the
announced winner payouts total 1200, exceeding the at-stake pool. -/
theorem payout_exceeds_pool_cex :
    SunoLabs.prizePool 1000 = 800 ∧
    SunoLabs.announceTotal
      { treasurySUNO := 1000, transFeeCollected := 0, pendingPayments := [],
        participants := [
          { userId := "u1", wallet := "W1", amount := 5, sunoReceived := 0,
            tier := "Whale", tierBadge := "W", retention := 3/4, multiplier := 3/2,
            paid := true, timestamp := 0, choice := "upload", user := some "a1",
            track := some "t1", title := some "s1", votes := 5, voters := [],
            votedFor := none },
          { userId := "u2", wallet := "W2", amount := 5, sunoReceived := 0,
            tier := "Whale", tierBadge := "W", retention := 3/4, multiplier := 3/2,
            paid := true, timestamp := 0, choice := "upload", user := some "a2",
            track := some "t2", title := some "s2", votes := 4, voters := [],
            votedFor := none },
          { userId := "u3", wallet := "W3", amount := 5, sunoReceived := 0,
            tier := "Whale", tierBadge := "W", retention := 3/4, multiplier := 3/2,
            paid := true, timestamp := 0, choice := "upload", user := some "a3",
            track := some "t3", title := some "s3", votes := 3, voters := [],
            votedFor := none },
          { userId := "u4", wallet := "W4", amount := 5, sunoReceived := 0,
            tier := "Whale", tierBadge := "W", retention := 3/4, multiplier := 3/2,
            paid := true, timestamp := 0, choice := "upload", user := some "a4",
            track := some "t4", title := some "s4", votes := 2, voters := [],
            votedFor := none },
          { userId := "u5", wallet := "W5", amount := 5, sunoReceived := 0,
            tier := "Whale", tierBadge := "W", retention := 3/4, multiplier := 3/2,
            paid := true, timestamp := 0, choice := "upload", user := some "a5",
            track := some "t5", title := some "s5", votes := 1, voters := [],
            votedFor := none }],
        voters := [], phase := "voting", cycleStartTime := none,
        nextPhaseTime := none } = 1200 ∧
    SunoLabs.prizePool 1000 < 1200 := by
  refine ⟨?_, ?_, by norm_num [SunoLabs.prizePool]⟩
  · norm_num [SunoLabs.prizePool]
  · norm_num [SunoLabs.announceTotal, SunoLabs.winnerPayouts, SunoLabs.rankedUploaders,
      SunoLabs.sortByVotes, SunoLabs.insertByVotes, SunoLabs.prizePool, SunoLabs.baseAmt,
      SunoLabs.finalAmt, SunoLabs.weights, List.filter, List.zip, List.zipWith, List.map,
      List.sum_cons]

/-- Claim C2 as amended: the weight vector sums to exactly one, so the floored
base shares distributed to ranked winners never exceed the at-stake pool; each
final payout is that base share further multiplied by the Entry stored prize
multiplier, which the tier system caps at 1.5, so the total distributed is
bounded by three halves of the pool — but, as the counterexample shows, it can
exceed the pool itself once multipliers above one are involved. -/
theorem winner_payout_bound (s : SunoLabs.BotState)
    (hm : ∀ p ∈ s.participants, p.multiplier ≤ 3/2) :
    SunoLabs.weights.sum = 1 ∧
    (((SunoLabs.weights.zip (SunoLabs.rankedUploaders s)).map
        (fun we => (SunoLabs.baseAmt (SunoLabs.prizePool s.treasurySUNO) we.1 : ℚ))).sum) ≤
      (SunoLabs.prizePool s.treasurySUNO : ℚ) ∧
    2 * SunoLabs.announceTotal s ≤ 3 * SunoLabs.prizePool s.treasurySUNO := by
  have hmr : ∀ e ∈ SunoLabs.rankedUploaders s, e.multiplier ≤ 3/2 := by
    intro e he
    have hmem := SunoLabs.mem_sortByVotes e _ he
    exact hm e (List.mem_filter.mp hmem).1
  refine ⟨SunoLabs.weights_sum, ?_, ?_⟩
  · have h := SunoLabs.zip_base_le (SunoLabs.prizePool s.treasurySUNO) SunoLabs.weights
      (SunoLabs.rankedUploaders s) SunoLabs.weights_nonneg
    rw [SunoLabs.weights_sum] at h
    simpa using h
  · have h := SunoLabs.zip_final_le (SunoLabs.prizePool s.treasurySUNO) SunoLabs.weights
      (SunoLabs.rankedUploaders s) SunoLabs.weights_nonneg hmr
    rw [SunoLabs.weights_sum] at h
    have hcast : ((SunoLabs.announceTotal s : ℕ) : ℚ) =
        ((SunoLabs.weights.zip (SunoLabs.rankedUploaders s)).map
          (fun we => (SunoLabs.finalAmt (SunoLabs.prizePool s.treasurySUNO) we.1
            we.2.multiplier : ℚ))).sum := by
      unfold SunoLabs.announceTotal SunoLabs.winnerPayouts
      rw [Nat.cast_list_sum, List.map_map]
      rfl
    have hq : (SunoLabs.announceTotal s : ℚ) ≤
        (3/2) * (SunoLabs.prizePool s.treasurySUNO : ℚ) := by
      rw [hcast]
      simpa using h
    have h2 : ((2 * SunoLabs.announceTotal s : ℕ) : ℚ) ≤
        ((3 * SunoLabs.prizePool s.treasurySUNO : ℕ) : ℚ) := by
      push_cast
      linarith
    exact_mod_cast h2

/-- Witness for C2 as amended: a single paid entry with multiplier 1 on a
treasury of 10 keeps the distributed total within the bound. -/
theorem winner_payout_bound_witness :
    SunoLabs.weights.sum = 1 ∧
    2 * SunoLabs.announceTotal
      { treasurySUNO := 10, transFeeCollected := 0, pendingPayments := [],
        participants := [
          { userId := "u1", wallet := "W1", amount := 1/100, sunoReceived := 0,
            tier := "Basic", tierBadge := "B", retention := 1/2, multiplier := 1,
            paid := true, timestamp := 0, choice := "upload", user := some "a1",
            track := some "t1", title := some "s1", votes := 0, voters := [],
            votedFor := none }],
        voters := [], phase := "voting", cycleStartTime := none,
        nextPhaseTime := none } ≤ 3 * SunoLabs.prizePool 10 := by
  have h := winner_payout_bound
    { treasurySUNO := 10, transFeeCollected := 0, pendingPayments := [],
      participants := [
        { userId := "u1", wallet := "W1", amount := 1/100, sunoReceived := 0,
          tier := "Basic", tierBadge := "B", retention := 1/2, multiplier := 1,
          paid := true, timestamp := 0, choice := "upload", user := some "a1",
          track := some "t1", title := some "s1", votes := 0, voters := [],
          votedFor := none }],
      voters := [], phase := "voting", cycleStartTime := none,
      nextPhaseTime := none }
    (by intro p hp; rcases List.mem_singleton.mp hp with rfl; norm_num)
  exact ⟨h.1, h.2.2⟩
